import Mathlib

/-!
# MeaDocs desktop shell (src/main.js): supervision, readiness probe, updates

The Electron main process is a single-threaded event loop.  It is embedded as a
state type holding the module-level variables of `main.js` (`mainWindow`,
`pythonProcess`, `isQuitting`) together with the callbacks the program has
registered and that the runtime has not yet invoked (timers, HTTP probes,
tree-kill callbacks, message boxes), and a `step` function that runs one
callback of the source to completion.  Calls into Electron, Node and tree-kill
are recorded, in order, in `State.trace`.  Diagnostic output (`console.log`,
`logToFile`, whose body is wrapped in try/catch) is left out of the trace.
-/

namespace MeaDocs

/-! ## JavaScript objects with string values -/

/-- Own enumerable properties of a plain object, as pairs of name and value in
the order of their first write.  (A real object lists integer index names
first; nothing below depends on the order.) -/
abbrev Obj := List (String × String)

/-- Property read `o[k]` of an own property. -/
def objGet : Obj → String → Option String
  | [], _ => none
  | (k1, v1) :: rest, k => if k1 = k then some v1 else objGet rest k

/-- Create the own data property `k`, or overwrite it in place. -/
def defineOwn : Obj → String → String → Obj
  | [], k, v => [(k, v)]
  | (k1, v1) :: rest, k, v =>
    if k1 = k then (k, v) :: rest else (k1, v1) :: defineOwn rest k v

/-- Property write `o[k] = v` of a string `v` on a plain object, whose prototype
is `Object.prototype`.  The name `__proto__` is an accessor of the prototype and
its setter ignores a value that is neither an object nor null: the write creates
no property.  A write of any other name creates or overwrites an own property. -/
def objSet (o : Obj) (k v : String) : Obj :=
  if k = "__proto__" then o else defineOwn o k v

/-- Whether a name is a decimal numeral without leading zero (0, 7, 42): the
names that a JavaScript engine treats as integer indices are of this form. -/
def isIntegerName (k : String) : Bool :=
  match k.data with
  | [] => false
  | [c] => c.isDigit
  | c :: rest => c.isDigit && c != '0' && rest.all Char.isDigit

/-- Result of `Object.keys(o)`. -/
def objKeys (o : Obj) : List String := o.map Prod.fst

/-- One source of `Object.assign`: each own enumerable property of the source,
in order, is written to the target with `target[k] = v`. -/
def assignOne (target src : Obj) : Obj :=
  src.foldl (fun t kv => objSet t kv.1 kv.2) target

/-- Result of `Object.assign(target, ...sources)`. -/
def objectAssign (target : Obj) (sources : List Obj) : Obj :=
  sources.foldl assignOne target

/-! ## Host, effects, state -/

/-- What `child_process.spawn` does on one call: return a handle, or throw.
A handle is identified by its pid.  A process that cannot be started without a
throw is a handle too: Node reports it through the `error` and `close` events
of the handle. -/
inductive SpawnResult where
  | child (pid : Nat)
  | throws
  deriving DecidableEq, Repr

/-- How the user leaves a message box. -/
inductive UserAction where
  | click (button : Nat)
  | dismiss
  deriving DecidableEq, Repr

/-- Everything `main.js` reads from its surroundings. -/
structure Host where
  /-- Value of `app.isPackaged`. -/
  isPackaged : Bool
  /-- Value of `__dirname`. -/
  dirname : String
  /-- Value of `process.resourcesPath`. -/
  resourcesPath : String
  /-- Value of `process.platform`. -/
  platform : String
  /-- The environment variables of the process, which `process.env` stands for. -/
  processEnv : Obj
  /-- Whether `process.env` has an own property for the variable of this name,
  asked only for integer names: Node versions differ on them. -/
  exposesIndexed : String → Bool
  /-- Library function `path.join`. -/
  pathJoin : List String → String
  /-- Library function `fs.existsSync`. -/
  existsSync : String → Bool
  /-- Outcome of the n-th call of `spawn` (counted from 0). -/
  spawnResult : Nat → SpawnResult
  /-- Value of `result.response` of `dialog.showMessageBox` for the given buttons. -/
  messageBox : List String → UserAction → Nat

def FLASK_PORT : Nat := 5000

def FLASK_URL : String := "http://localhost:5000"

/-- Line 15: `const isDev = !app.isPackaged`. -/
def isDev (h : Host) : Bool := !h.isPackaged

inductive Signal where
  | SIGTERM
  | SIGKILL
  deriving DecidableEq, Repr

/-- The four functions the program hands to `setTimeout`. -/
inductive TimerCallback where
  /-- Lines 100-102: `() => { startPythonBackend(); }`, 2000 ms. -/
  | restartBackend
  /-- Lines 163 and 169: `tryConnect`, 500 ms. -/
  | tryConnect
  /-- Lines 147-149: `() => { mainWindow.loadURL(FLASK_URL); }`, 500 ms. -/
  | reloadWindow
  /-- Lines 220-222: `() => { autoUpdater.checkForUpdatesAndNotify(); }`, 3000 ms. -/
  | checkForUpdates
  deriving DecidableEq, Repr

/-- The two message boxes of the update handlers. -/
inductive Dialog where
  /-- Lines 180-185, buttons Yes and No. -/
  | updateAvailable
  /-- Lines 193-198, button Restart. -/
  | updateReady
  deriving DecidableEq, Repr

def Dialog.buttons : Dialog → List String
  | .updateAvailable => ["Yes", "No"]
  | .updateReady => ["Restart"]

inductive JsError where
  | typeError (message : String)
  deriving DecidableEq, Repr

/-- Calls the program makes into Electron, Node and tree-kill. -/
inductive Effect where
  | spawn (command : String) (args : List String) (cwd : String) (env : Obj)
  | setTimeout (cb : TimerCallback) (ms : Nat)
  | kill (pid : Nat) (signal : Signal) (withCallback : Bool)
  | httpGet (url : String)
  | newBrowserWindow (id : Nat)
  | loadURL (window : Nat) (url : String)
  | showMessageBox (d : Dialog)
  | downloadUpdate
  | quitAndInstall
  | checkForUpdatesAndNotify
  | appQuit
  /-- A callback threw; the `uncaughtException` handler of lines 258-261 ran. -/
  | uncaughtException (e : JsError)
  deriving DecidableEq, Repr

structure State where
  /-- Line 9: `let mainWindow`. -/
  mainWindow : Option Nat
  /-- Line 10: `let pythonProcess` (the handle, identified by its pid). -/
  pythonProcess : Option Nat
  /-- Line 11: `let isQuitting = false`. -/
  isQuitting : Bool
  /-- The promise `app.whenReady()` has resolved and its handler has run. -/
  appReady : Bool
  /-- Number of calls of `spawn` so far. -/
  spawns : Nat
  /-- Children returned by `spawn` that have not emitted `close` yet. -/
  live : List Nat
  /-- Windows created and not closed yet. -/
  windows : List Nat
  /-- Number of windows created so far. -/
  nextWindow : Nat
  /-- Timers set and not fired yet. -/
  timers : List TimerCallback
  /-- Probe requests sent and not answered yet. -/
  pendingProbes : Nat
  /-- Pids of the SIGTERM requests whose callback has not run yet. -/
  killCallbacks : List Nat
  /-- Message boxes shown and not closed yet. -/
  dialogs : List Dialog
  /-- Calls made so far, oldest first. -/
  trace : List Effect
  deriving DecidableEq, Repr

/-- State of the process when `main.js` has been loaded. -/
def State.init : State where
  mainWindow := none
  pythonProcess := none
  isQuitting := false
  appReady := false
  spawns := 0
  live := []
  windows := []
  nextWindow := 0
  timers := []
  pendingProbes := 0
  killCallbacks := []
  dialogs := []
  trace := []

def State.emit (s : State) (e : Effect) : State :=
  { s with trace := s.trace ++ [e] }

/-- Call `setTimeout(cb, ms)`. -/
def State.setTimeout (s : State) (cb : TimerCallback) (ms : Nat) : State :=
  { s.emit (.setTimeout cb ms) with timers := s.timers ++ [cb] }

/-! ## The functions of main.js -/

/-- Lines 22-32. -/
def getBackendPath (h : Host) : String :=
  if isDev h then
    let venvPython := h.pathJoin [h.dirname, ".venv", "Scripts", "python.exe"]
    if h.existsSync venvPython then venvPython else "python"
  else
    h.pathJoin [h.resourcesPath, "meadoc_server", "meadoc_server.exe"]

/-- Lines 34-42. -/
def getAppPath (h : Host) : String :=
  if isDev h then h.dirname else h.resourcesPath

/-- The own enumerable properties of `process.env`, which `Object.assign` reads. -/
def envProperties (h : Host) : Obj :=
  h.processEnv.filter fun kv => !isIntegerName kv.1 || h.exposesIndexed kv.1

/-- Lines 62-65: the `env` handed to `spawn`. -/
def backendEnv (h : Host) : Obj :=
  objectAssign [] [envProperties h, [("PYTHONUNBUFFERED", "1"), ("FLASK_APP", "app.py")]]

/-- Lines 53-112.  The promise executor runs synchronously; a throw of `spawn`
is caught (line 107) and only rejects the returned promise. -/
def startPythonBackend (h : Host) (s : State) : State :=
  let backendPath := getBackendPath h
  let appPath := if isDev h then h.dirname else h.pathJoin [h.resourcesPath, "meadoc_server"]
  let env := backendEnv h
  let args := if isDev h then ["app.py"] else []
  let s1 := { s.emit (.spawn backendPath args appPath env) with spawns := s.spawns + 1 }
  match h.spawnResult s.spawns with
  | .child pid => { s1 with pythonProcess := some pid, live := pid :: s1.live }
  | .throws => s1

/-- Lines 94-104: the `close` listener of a child. -/
def onClose (s : State) (_code : Option Int) : State :=
  if !s.isQuitting then s.setTimeout .restartBackend 2000 else s

/-- Lines 114-151. -/
def createWindow (s : State) : State :=
  let w := s.nextWindow
  let s1 := { s with mainWindow := some w, windows := w :: s.windows, nextWindow := w + 1 }
  (s1.emit (.newBrowserWindow w)).emit (.loadURL w FLASK_URL)

/-- Lines 140-142: the `closed` listener of a window. -/
def onWindowClosed (s : State) : State :=
  { s with mainWindow := none }

/-- Lines 145-150: the `did-fail-load` listener. -/
def onDidFailLoad (s : State) : State :=
  s.setTimeout .reloadWindow 500

/-- Lines 147-149: the timer callback `() => { mainWindow.loadURL(FLASK_URL); }`.
The second component is the exception the callback throws, if any. -/
def reloadWindow (s : State) : State × Option JsError :=
  match s.mainWindow with
  | some w => (s.emit (.loadURL w FLASK_URL), none)
  | none => (s, some (.typeError "Cannot read properties of null (reading loadURL)"))

/-- Lines 154-173: `tryConnect` up to the return of `req.end()`. -/
def tryConnect (s : State) : State :=
  { s.emit (.httpGet FLASK_URL) with pendingProbes := s.pendingProbes + 1 }

/-- Lines 155-165: the response callback of a probe. -/
def onProbeResponse (s : State) (statusCode : Nat) : State :=
  if statusCode = 200 then
    match s.mainWindow with
    | some w => s.emit (.loadURL w FLASK_URL)
    | none => s
  else
    s.setTimeout .tryConnect 500

/-- Lines 167-170: the `error` listener of a probe. -/
def onProbeError (s : State) : State :=
  s.setTimeout .tryConnect 500

/-- Lines 153-176. -/
def checkServerAndLoad (s : State) : State :=
  tryConnect s

/-- Lines 179-185 and 192-198: show the message box of an update event. -/
def showMessageBox (s : State) (d : Dialog) : State :=
  { s.emit (.showMessageBox d) with dialogs := s.dialogs ++ [d] }

/-- Lines 185-189: `.then((result) => ...)` of the update-available box. -/
def onUpdateAvailableResult (s : State) (response : Nat) : State :=
  if response = 0 then s.emit .downloadUpdate else s

/-- Lines 198-200: `.then(() => { autoUpdater.quitAndInstall(); })`. -/
def onUpdateDownloadedResult (s : State) (_response : Nat) : State :=
  s.emit .quitAndInstall

/-- Lines 207-230: the handler of `app.whenReady()`. -/
def onReady (h : Host) (s : State) : State :=
  let s1 := startPythonBackend h s
  let s2 := createWindow s1
  let s3 := checkServerAndLoad s2
  if !isDev h then s3.setTimeout .checkForUpdates 3000 else s3

/-- Lines 232-236. -/
def onWindowAllClosed (h : Host) (s : State) : State :=
  if h.platform ≠ "darwin" then s.emit .appQuit else s

/-- Lines 238-242. -/
def onActivate (s : State) : State :=
  if s.windows.length = 0 then createWindow s else s

/-- Lines 244-256. -/
def onBeforeQuit (s : State) : State :=
  let s1 := { s with isQuitting := true }
  match s1.pythonProcess with
  | some pid =>
    { s1.emit (.kill pid .SIGTERM true) with
      killCallbacks := s1.killCallbacks ++ [pid], pythonProcess := none }
  | none => s1

/-- Lines 248-253: the callback handed to tree-kill with the SIGTERM request.
`pythonProcess` is read when the callback runs. -/
def onKillDone (s : State) (err : Bool) : State × Option JsError :=
  if err then
    match s.pythonProcess with
    | some pid => (s.emit (.kill pid .SIGKILL false), none)
    | none => (s, some (.typeError "Cannot read properties of null (reading pid)"))
  else (s, none)

/-! ## The event loop -/

inductive ProbeOutcome where
  | response (statusCode : Nat)
  | error
  deriving DecidableEq, Repr

/-- One turn of the event loop: the runtime invokes one registered callback. -/
inductive Event where
  | ready
  | close (pid : Nat) (code : Option Int)
  | timer (cb : TimerCallback)
  | beforeQuit
  | killDone (pid : Nat) (err : Bool)
  | probe (o : ProbeOutcome)
  | windowClosed (w : Nat)
  | didFailLoad (w : Nat)
  | windowAllClosed
  | activate
  | updateAvailable
  | updateDownloaded
  | dialogClosed (d : Dialog) (a : UserAction)
  deriving DecidableEq, Repr

/-- Lines 258-261: an exception that leaves a callback reaches the
`uncaughtException` handler, which logs it; the process goes on. -/
def settle (r : State × Option JsError) : State :=
  match r.2 with
  | none => r.1
  | some e => r.1.emit (.uncaughtException e)

/-- Body of a timer callback. -/
def runTimer (h : Host) (s : State) : TimerCallback → State
  | .restartBackend => startPythonBackend h s
  | .tryConnect => tryConnect s
  | .reloadWindow => settle (reloadWindow s)
  | .checkForUpdates => s.emit .checkForUpdatesAndNotify

/-- One event.  The result is `none` when the runtime cannot deliver the event
in this state: the ready promise resolves once, a child closes once, a timer
fires once after it was set, a callback runs once for its request. -/
def step (h : Host) (s : State) : Event → Option State
  | .ready =>
    if s.appReady then none else some (onReady h { s with appReady := true })
  | .close pid code =>
    if pid ∈ s.live then some (onClose { s with live := s.live.erase pid } code) else none
  | .timer cb =>
    if cb ∈ s.timers then some (runTimer h { s with timers := s.timers.erase cb } cb) else none
  | .beforeQuit => some (onBeforeQuit s)
  | .killDone pid err =>
    if pid ∈ s.killCallbacks then
      some (settle (onKillDone { s with killCallbacks := s.killCallbacks.erase pid } err))
    else none
  | .probe o =>
    if 0 < s.pendingProbes then
      let s1 := { s with pendingProbes := s.pendingProbes - 1 }
      match o with
      | .response statusCode => some (onProbeResponse s1 statusCode)
      | .error => some (onProbeError s1)
    else none
  | .windowClosed w =>
    if w ∈ s.windows then some (onWindowClosed { s with windows := s.windows.erase w }) else none
  | .didFailLoad w =>
    if w ∈ s.windows then some (onDidFailLoad s) else none
  | .windowAllClosed =>
    if s.windows = [] then some (onWindowAllClosed h s) else none
  | .activate => some (onActivate s)
  | .updateAvailable => some (showMessageBox s .updateAvailable)
  | .updateDownloaded => some (showMessageBox s .updateReady)
  | .dialogClosed d a =>
    if d ∈ s.dialogs then
      let s1 := { s with dialogs := s.dialogs.erase d }
      let response := h.messageBox d.buttons a
      match d with
      | .updateAvailable => some (onUpdateAvailableResult s1 response)
      | .updateReady => some (onUpdateDownloadedResult s1 response)
    else none

/-- A sequence of events, from state `s`. -/
def run (h : Host) (s : State) : List Event → Option State
  | [] => some s
  | e :: es => (step h s e).bind fun s1 => run h s1 es

/-- Number of restart timers set and not fired yet. -/
def restartTimers (s : State) : Nat := s.timers.count .restartBackend

/-- Number of probe requests sent so far. -/
def probesSent (s : State) : Nat :=
  s.trace.countP fun e => match e with
    | .httpGet _ => true
    | _ => false

/-- Children alive, plus restarts still to come: pending restart timers, and
the initial start while the ready handler has not run. -/
def backendBudget (s : State) : Nat :=
  s.live.length + restartTimers s + (if s.appReady then 0 else 1)

/-- A host for evaluation: development mode, venv interpreter present,
the n-th spawn returns pid 100 + n. -/
def demoHost : Host where
  isPackaged := false
  dirname := "/app"
  resourcesPath := "/res"
  platform := "win32"
  processEnv := [("PATH", "/bin"), ("FLASK_APP", "other.py")]
  exposesIndexed := fun _ => true
  pathJoin := fun parts => "/".intercalate parts
  existsSync := fun _ => true
  spawnResult := fun n => .child (100 + n)
  messageBox := fun _ a => match a with
    | .click i => i
    | .dismiss => 0

/-- The host `demoHost` with a variable named `__proto__` in its environment. -/
def protoHost : Host :=
  { demoHost with processEnv := [("__proto__", "x"), ("PATH", "/bin")] }

/-- The host `demoHost` with a variable named `1` in its environment, on a Node
whose `process.env` has no property for integer names. -/
def indexHost : Host :=
  { demoHost with processEnv := [("1", "x"), ("PATH", "/bin")], exposesIndexed := fun _ => false }

/-- The state of `demoHost` when the ready handler has run. -/
def demoRunning : State :=
  (run demoHost State.init [.ready]).getD State.init

/-- The state of `demoHost` when the first backend has exited with code 1. -/
def demoCrashed : State :=
  (run demoHost State.init [.ready, .close 100 (some 1)]).getD State.init

/-! ## Objects: reads after writes -/

theorem objGet_defineOwn_self (o : Obj) (k v : String) :
    objGet (defineOwn o k v) k = some v := by
  induction o with
  | nil => simp [defineOwn, objGet]
  | cons p rest ih =>
    obtain ⟨k1, v1⟩ := p
    by_cases hk : k1 = k
    · simp [defineOwn, objGet, hk]
    · simp [defineOwn, objGet, hk, ih]

theorem objGet_defineOwn_ne (o : Obj) (k v k2 : String) (hne : k2 ≠ k) :
    objGet (defineOwn o k v) k2 = objGet o k2 := by
  induction o with
  | nil => simp [defineOwn, objGet, Ne.symm hne]
  | cons p rest ih =>
    obtain ⟨k1, v1⟩ := p
    by_cases hk : k1 = k
    · subst hk
      simp [defineOwn, objGet, Ne.symm hne]
    · by_cases hk2 : k1 = k2
      · subst hk2
        simp [defineOwn, objGet, hk]
      · simp [defineOwn, objGet, hk, hk2, ih]

theorem mem_objKeys_defineOwn (o : Obj) (k v k2 : String) :
    k2 ∈ objKeys (defineOwn o k v) ↔ k2 = k ∨ k2 ∈ objKeys o := by
  induction o with
  | nil => simp [defineOwn, objKeys]
  | cons p rest ih =>
    obtain ⟨k1, v1⟩ := p
    by_cases hk : k1 = k
    · subst hk
      simp [defineOwn, objKeys]
    · have ih2 : k2 ∈ List.map Prod.fst (defineOwn rest k v) ↔
          k2 = k ∨ k2 ∈ List.map Prod.fst rest := ih
      simp only [defineOwn, hk, if_false, objKeys, List.map_cons, List.mem_cons, ih2]
      tauto

theorem objGet_objSet_self (o : Obj) (k v : String) (hk : k ≠ "__proto__") :
    objGet (objSet o k v) k = some v := by
  simp [objSet, hk, objGet_defineOwn_self]

theorem objGet_objSet_ne (o : Obj) (k v k2 : String) (hne : k2 ≠ k) :
    objGet (objSet o k v) k2 = objGet o k2 := by
  by_cases hk : k = "__proto__"
  · simp [objSet, hk]
  · simp [objSet, hk, objGet_defineOwn_ne o k v k2 hne]

theorem mem_objKeys_objSet (o : Obj) (k v k2 : String) :
    k2 ∈ objKeys (objSet o k v) ↔ (k2 = k ∧ k ≠ "__proto__") ∨ k2 ∈ objKeys o := by
  by_cases hk : k = "__proto__"
  · simp [objSet, hk]
  · simp [objSet, hk, mem_objKeys_defineOwn]

theorem objGet_eq_none_of_not_mem (o : Obj) (k : String) (hk : k ∉ objKeys o) :
    objGet o k = none := by
  induction o with
  | nil => simp [objGet]
  | cons p rest ih =>
    obtain ⟨k1, v1⟩ := p
    simp only [objKeys, List.map_cons, List.mem_cons, not_or] at hk
    have h1 : ¬ k1 = k := fun e => hk.1 e.symm
    simp only [objGet, h1, if_false]
    exact ih hk.2

theorem assignOne_cons (target rest : Obj) (k1 v1 : String) :
    assignOne target ((k1, v1) :: rest) = assignOne (objSet target k1 v1) rest := by
  simp [assignOne]

theorem objGet_assignOne (src target : Obj) (k : String) (hsrc : (objKeys src).Nodup)
    (hk : k ≠ "__proto__") :
    objGet (assignOne target src) k =
      match objGet src k with
      | some v => some v
      | none => objGet target k := by
  induction src generalizing target with
  | nil => simp [assignOne, objGet]
  | cons p rest ih =>
    obtain ⟨k1, v1⟩ := p
    simp only [objKeys, List.map_cons, List.nodup_cons] at hsrc
    rw [assignOne_cons, ih (objSet target k1 v1) hsrc.2]
    by_cases hk1 : k1 = k
    · subst hk1
      have hnone : objGet rest k1 = none := objGet_eq_none_of_not_mem rest k1 hsrc.1
      simp [objGet, hnone, objGet_objSet_self _ _ _ hk]
    · simp only [objGet, hk1, if_false]
      rw [objGet_objSet_ne target k1 v1 k (fun e => hk1 e.symm)]

/-- No source gives the target a property named `__proto__`. -/
theorem objGet_assignOne_proto (src target : Obj) :
    objGet (assignOne target src) "__proto__" = objGet target "__proto__" := by
  induction src generalizing target with
  | nil => simp [assignOne]
  | cons p rest ih =>
    obtain ⟨k1, v1⟩ := p
    rw [assignOne_cons, ih]
    by_cases hk1 : k1 = "__proto__"
    · simp [objSet, hk1]
    · exact objGet_objSet_ne target k1 v1 "__proto__" (fun e => hk1 e.symm)

theorem mem_objKeys_assignOne (src target : Obj) (k : String) :
    k ∈ objKeys (assignOne target src) ↔
      k ∈ objKeys target ∨ (k ∈ objKeys src ∧ k ≠ "__proto__") := by
  induction src generalizing target with
  | nil => simp [assignOne, objKeys]
  | cons p rest ih =>
    obtain ⟨k1, v1⟩ := p
    rw [assignOne_cons, ih, mem_objKeys_objSet]
    simp only [objKeys, List.map_cons, List.mem_cons]
    constructor
    · rintro ((⟨h1, h2⟩ | h1) | ⟨h1, h2⟩)
      · exact Or.inr ⟨Or.inl h1, h1 ▸ h2⟩
      · exact Or.inl h1
      · exact Or.inr ⟨Or.inr h1, h2⟩
    · rintro (h1 | ⟨h1 | h1, h2⟩)
      · exact Or.inl (Or.inr h1)
      · exact Or.inl (Or.inl ⟨h1, h1 ▸ h2⟩)
      · exact Or.inr ⟨h1, h2⟩

theorem objGet_filter (o : Obj) (q : String → Bool) (k : String) :
    objGet (o.filter fun kv => q kv.1) k = if q k then objGet o k else none := by
  induction o with
  | nil => simp [objGet]
  | cons p rest ih =>
    obtain ⟨k1, v1⟩ := p
    by_cases hk1 : k1 = k
    · subst hk1
      cases hq : q k1 <;> simp [List.filter_cons, hq, objGet, ih]
    · cases hq : q k1 <;> simp [List.filter_cons, hq, objGet, hk1, ih]

theorem mem_objKeys_filter (o : Obj) (q : String → Bool) (k : String) :
    k ∈ objKeys (o.filter fun kv => q kv.1) ↔ k ∈ objKeys o ∧ q k = true := by
  simp only [objKeys, List.mem_map, List.mem_filter]
  constructor
  · rintro ⟨p, ⟨hp, hq⟩, rfl⟩
    exact ⟨⟨p, hp, rfl⟩, hq⟩
  · rintro ⟨⟨p, hp, rfl⟩, hq⟩
    exact ⟨p, ⟨hp, hq⟩, rfl⟩

theorem nodup_objKeys_filter (o : Obj) (p : String × String → Bool)
    (ho : (objKeys o).Nodup) : (objKeys (o.filter p)).Nodup :=
  List.Nodup.sublist (List.Sublist.map Prod.fst (List.filter_sublist o)) ho

theorem backendEnv_eq (h : Host) :
    backendEnv h =
      objSet (objSet (assignOne [] (envProperties h)) "PYTHONUNBUFFERED" "1")
        "FLASK_APP" "app.py" := by
  simp [backendEnv, objectAssign, assignOne]

theorem startPythonBackend_trace (h : Host) (s : State) :
    (startPythonBackend h s).trace =
      s.trace ++ [Effect.spawn (getBackendPath h) (if isDev h then ["app.py"] else [])
        (if isDev h then h.dirname else h.pathJoin [h.resourcesPath, "meadoc_server"])
        (backendEnv h)] := by
  unfold startPythonBackend
  cases h.spawnResult s.spawns <;> simp [State.emit]

/-- C7, as the claim states it, fails: a variable named `__proto__` is in the
inherited environment and not in the environment handed to `spawn`, because the
write `target[k] = v` of `Object.assign` on the name `__proto__` creates no
property.  On a Node whose `process.env` has no property for integer names,
the variable named `1` is not handed on either. -/
theorem env_drops_proto :
    (objGet protoHost.processEnv "__proto__" = some "x" ∧
      "__proto__" ≠ "PYTHONUNBUFFERED" ∧ "__proto__" ≠ "FLASK_APP" ∧
      (startPythonBackend protoHost State.init).trace =
        [Effect.spawn "/app/.venv/Scripts/python.exe" ["app.py"] "/app"
          [("PATH", "/bin"), ("PYTHONUNBUFFERED", "1"), ("FLASK_APP", "app.py")]] ∧
      objGet (backendEnv protoHost) "__proto__" = none) ∧
    (objGet indexHost.processEnv "1" = some "x" ∧
      objGet (backendEnv indexHost) "1" = none) := by
  refine ⟨⟨by decide, by decide, by decide, ?_, by decide⟩, by decide, by decide⟩
  rw [startPythonBackend_trace]
  decide

/-- C7, amended. The environment handed to `spawn` by `startPythonBackend` maps
PYTHONUNBUFFERED to 1 and FLASK_APP to app.py whatever the inherited environment
says, agrees with the inherited environment on every other name that is neither
`__proto__` nor an integer name, contains every such inherited name, and has no
name besides the inherited ones and those two. -/
theorem env_layering (h : Host) (s : State) (hE : (objKeys h.processEnv).Nodup) :
    ∃ command args cwd env,
      (startPythonBackend h s).trace = s.trace ++ [Effect.spawn command args cwd env] ∧
      objGet env "PYTHONUNBUFFERED" = some "1" ∧
      objGet env "FLASK_APP" = some "app.py" ∧
      (∀ k, k ≠ "PYTHONUNBUFFERED" → k ≠ "FLASK_APP" → k ≠ "__proto__" →
        isIntegerName k = false → objGet env k = objGet h.processEnv k) ∧
      (∀ k, k ∈ objKeys h.processEnv → k ≠ "__proto__" → isIntegerName k = false →
        k ∈ objKeys env) ∧
      (∀ k, k ∈ objKeys env →
        k ∈ objKeys h.processEnv ∨ k = "PYTHONUNBUFFERED" ∨ k = "FLASK_APP") := by
  have hN : (objKeys (envProperties h)).Nodup := nodup_objKeys_filter _ _ hE
  refine ⟨_, _, _, backendEnv h, startPythonBackend_trace h s, ?_, ?_, ?_, ?_, ?_⟩
  · rw [backendEnv_eq, objGet_objSet_ne _ _ _ _ (by decide),
      objGet_objSet_self _ _ _ (by decide)]
  · rw [backendEnv_eq, objGet_objSet_self _ _ _ (by decide)]
  · intro k h1 h2 h3 h4
    rw [backendEnv_eq, objGet_objSet_ne _ _ _ _ h2, objGet_objSet_ne _ _ _ _ h1,
      objGet_assignOne _ _ _ hN h3]
    have hf : objGet (envProperties h) k = objGet h.processEnv k := by
      have := objGet_filter h.processEnv
        (fun n => !isIntegerName n || h.exposesIndexed n) k
      simpa [envProperties, h4] using this
    rw [hf]
    cases objGet h.processEnv k <;> simp [objGet]
  · intro k hk h3 h4
    rw [backendEnv_eq, mem_objKeys_objSet, mem_objKeys_objSet, mem_objKeys_assignOne]
    refine Or.inr (Or.inr (Or.inr ⟨?_, h3⟩))
    have := (mem_objKeys_filter h.processEnv
      (fun n => !isIntegerName n || h.exposesIndexed n) k).mpr ⟨hk, by simp [h4]⟩
    simpa [envProperties] using this
  · intro k hk
    rw [backendEnv_eq, mem_objKeys_objSet, mem_objKeys_objSet, mem_objKeys_assignOne] at hk
    rcases hk with ⟨hk, _⟩ | ⟨hk, _⟩ | hk | ⟨hk, _⟩
    · exact Or.inr (Or.inr hk)
    · exact Or.inr (Or.inl hk)
    · simp [objKeys] at hk
    · have := (mem_objKeys_filter h.processEnv
        (fun n => !isIntegerName n || h.exposesIndexed n) k).mp
        (by simpa [envProperties] using hk)
      exact Or.inl this.1

theorem env_layering_witness :
    (objKeys demoHost.processEnv).Nodup ∧
    ∃ command args cwd env,
      (startPythonBackend demoHost State.init).trace =
        State.init.trace ++ [Effect.spawn command args cwd env] ∧
      objGet env "PYTHONUNBUFFERED" = some "1" ∧
      objGet env "FLASK_APP" = some "app.py" ∧
      (∀ k, k ≠ "PYTHONUNBUFFERED" → k ≠ "FLASK_APP" → k ≠ "__proto__" →
        isIntegerName k = false → objGet env k = objGet demoHost.processEnv k) ∧
      (∀ k, k ∈ objKeys demoHost.processEnv → k ≠ "__proto__" → isIntegerName k = false →
        k ∈ objKeys env) ∧
      (∀ k, k ∈ objKeys env →
        k ∈ objKeys demoHost.processEnv ∨ k = "PYTHONUNBUFFERED" ∨ k = "FLASK_APP") :=
  ⟨by decide, env_layering demoHost State.init (by decide)⟩

/-- C8. Resolution of the backend command is total and depends only on the run
mode and on the presence of the venv interpreter: in development mode the venv
interpreter when it exists and `python` otherwise, with `app.py` as only
argument and the application directory as working directory; in packaged mode
the bundled executable, no argument, and its own directory as working
directory. -/
theorem resolution_total (h : Host) (s : State) :
    ∃ command args cwd env,
      (startPythonBackend h s).trace = s.trace ++ [Effect.spawn command args cwd env] ∧
      command = getBackendPath h ∧
      (h.isPackaged = false →
        h.existsSync (h.pathJoin [h.dirname, ".venv", "Scripts", "python.exe"]) = true →
        command = h.pathJoin [h.dirname, ".venv", "Scripts", "python.exe"] ∧
        args = ["app.py"] ∧ cwd = h.dirname) ∧
      (h.isPackaged = false →
        h.existsSync (h.pathJoin [h.dirname, ".venv", "Scripts", "python.exe"]) = false →
        command = "python" ∧ args = ["app.py"] ∧ cwd = h.dirname) ∧
      (h.isPackaged = true →
        command = h.pathJoin [h.resourcesPath, "meadoc_server", "meadoc_server.exe"] ∧
        args = [] ∧ cwd = h.pathJoin [h.resourcesPath, "meadoc_server"]) := by
  refine ⟨_, _, _, _, startPythonBackend_trace h s, rfl, ?_, ?_, ?_⟩
  · intro hp he
    simp [getBackendPath, isDev, hp, he]
  · intro hp he
    simp [getBackendPath, isDev, hp, he]
  · intro hp
    simp [getBackendPath, isDev, hp]

theorem resolution_total_witness :
    ∃ command args cwd env,
      (startPythonBackend demoHost State.init).trace =
        State.init.trace ++ [Effect.spawn command args cwd env] ∧
      command = "/app/.venv/Scripts/python.exe" ∧ args = ["app.py"] ∧ cwd = "/app" := by
  obtain ⟨command, args, cwd, env, ht, _, hdev, _, _⟩ := resolution_total demoHost State.init
  obtain ⟨h1, h2, h3⟩ := hdev rfl rfl
  exact ⟨command, args, cwd, env, ht, by rw [h1]; decide, h2, by rw [h3]; rfl⟩

/-- C2. When a child closes, whatever the exit code, the `close` listener sets
one 2000 ms timer whose callback is one call of `startPythonBackend` if
`isQuitting` is false, and does nothing if `isQuitting` is true. -/
theorem restart_iff_not_quitting (h : Host) (s : State) (pid : Nat) (code : Option Int)
    (hlive : pid ∈ s.live) :
    ∃ s1, step h s (.close pid code) = some s1 ∧
      s1.isQuitting = s.isQuitting ∧
      (s.isQuitting = false →
        s1.trace = s.trace ++ [Effect.setTimeout .restartBackend 2000] ∧
        s1.timers = s.timers ++ [TimerCallback.restartBackend]) ∧
      (s.isQuitting = true → s1.trace = s.trace ∧ s1.timers = s.timers) ∧
      (restartTimers s1 = restartTimers s + 1 ↔ s.isQuitting = false) ∧
      (∀ s2, runTimer h s2 .restartBackend = startPythonBackend h s2) := by
  cases hq : s.isQuitting <;>
    simp [step, hlive, onClose, hq, State.setTimeout, State.emit, restartTimers, runTimer]

theorem restart_iff_not_quitting_witness :
    100 ∈ demoRunning.live ∧
    ∃ s1, step demoHost demoRunning (.close 100 (some 1)) = some s1 ∧
      s1.isQuitting = demoRunning.isQuitting ∧
      (demoRunning.isQuitting = false →
        s1.trace = demoRunning.trace ++
          [Effect.setTimeout .restartBackend 2000] ∧
        s1.timers = demoRunning.timers ++ [TimerCallback.restartBackend]) ∧
      (demoRunning.isQuitting = true →
        s1.trace = demoRunning.trace ∧
        s1.timers = demoRunning.timers) ∧
      (restartTimers s1 = restartTimers demoRunning + 1 ↔
        demoRunning.isQuitting = false) ∧
      (∀ s2, runTimer demoHost s2 .restartBackend = startPythonBackend demoHost s2) :=
  ⟨by decide, restart_iff_not_quitting demoHost demoRunning 100 (some 1) (by decide)⟩

/-- C9, as the claim states it, fails: the user dismisses the Update Ready box
without pressing Restart, and `quitAndInstall` is called all the same. -/
theorem install_without_consent :
    UserAction.dismiss ≠ UserAction.click 0 ∧
    ∃ s, run demoHost State.init
        [.ready, .updateDownloaded, .dialogClosed .updateReady .dismiss] = some s ∧
      Effect.quitAndInstall ∈ s.trace := by
  refine ⟨by decide, ?_⟩
  simp [run, step, State.init, onReady, showMessageBox, onUpdateDownloadedResult,
    State.emit]

/-- C9, amended. The Update Ready box has the single button Restart, and when
it closes `quitAndInstall` is called once, whatever the user did: the handler
does not look at the result. -/
theorem install_on_any_result (h : Host) (s : State) (a : UserAction)
    (hd : Dialog.updateReady ∈ s.dialogs) :
    Dialog.buttons .updateReady = ["Restart"] ∧
    ∃ s1, step h s (.dialogClosed .updateReady a) = some s1 ∧
      s1.trace = s.trace ++ [Effect.quitAndInstall] := by
  simp [step, hd, onUpdateDownloadedResult, State.emit, Dialog.buttons]

theorem install_on_any_result_witness :
    Dialog.updateReady ∈ (showMessageBox State.init .updateReady).dialogs ∧
    (Dialog.buttons .updateReady = ["Restart"] ∧
    ∃ s1, step demoHost (showMessageBox State.init .updateReady)
        (.dialogClosed .updateReady (.click 0)) = some s1 ∧
      s1.trace = (showMessageBox State.init .updateReady).trace ++ [Effect.quitAndInstall]) :=
  ⟨by decide, install_on_any_result demoHost (showMessageBox State.init .updateReady)
    (.click 0) (by decide)⟩

/-- C6, as the claim states it, fails: the backend answers 200, crashes, and is
restarted by the 2-second timer; the restart sends no probe and sets no probe
timer, so no polling run exists for the second backend. -/
theorem restart_without_readiness_wait :
    ∃ s0 s1, run demoHost State.init
        [.ready, .probe (.response 200), .close 100 (some 1)] = some s0 ∧
      step demoHost s0 (.timer .restartBackend) = some s1 ∧
      s1.spawns = 2 ∧ s1.live = [101] ∧
      probesSent s0 = 1 ∧ probesSent s1 = 1 ∧
      s1.pendingProbes = 0 ∧ TimerCallback.tryConnect ∉ s1.timers := by
  simp [run, step, State.init, onReady, startPythonBackend, createWindow, checkServerAndLoad,
    tryConnect, onProbeResponse, onClose, runTimer, State.setTimeout, State.emit, demoHost,
    isDev, probesSent]

/-- C6, amended. The restart timer re-invokes `startPythonBackend` and nothing
else: firing it makes the one `spawn` call, sends no probe, sets no timer, and
leaves the window alone. -/
theorem restart_only_spawns (h : Host) (s : State)
    (ht : TimerCallback.restartBackend ∈ s.timers) :
    ∃ s1 command args cwd env, step h s (.timer .restartBackend) = some s1 ∧
      s1.trace = s.trace ++ [Effect.spawn command args cwd env] ∧
      s1.spawns = s.spawns + 1 ∧
      probesSent s1 = probesSent s ∧
      s1.pendingProbes = s.pendingProbes ∧
      s1.timers = s.timers.erase .restartBackend ∧
      s1.timers.count .tryConnect = s.timers.count .tryConnect ∧
      s1.mainWindow = s.mainWindow := by
  have hs1 : step h s (.timer .restartBackend) =
      some (startPythonBackend h { s with timers := s.timers.erase .restartBackend }) := by
    simp only [step, ht, if_true]; rfl
  have hne : TimerCallback.tryConnect ≠ TimerCallback.restartBackend := by decide
  refine ⟨_, _, _, _, _, hs1, startPythonBackend_trace h _, ?_, ?_, ?_, ?_, ?_, ?_⟩
  · simp only [startPythonBackend]
    cases h.spawnResult s.spawns <;> simp
  · simp only [probesSent, startPythonBackend_trace]
    simp
  · simp only [startPythonBackend]
    cases h.spawnResult s.spawns <;> simp [State.emit]
  · simp only [startPythonBackend]
    cases h.spawnResult s.spawns <;> simp [State.emit]
  · have ht2 : (startPythonBackend h { s with timers := s.timers.erase .restartBackend }).timers
        = s.timers.erase .restartBackend := by
      simp only [startPythonBackend]
      cases h.spawnResult s.spawns <;> simp [State.emit]
    rw [ht2, List.count_erase_of_ne hne]
  · simp only [startPythonBackend]
    cases h.spawnResult s.spawns <;> simp [State.emit]

theorem restart_only_spawns_witness :
    TimerCallback.restartBackend ∈ demoCrashed.timers ∧
    ∃ s1 command args cwd env,
      step demoHost demoCrashed (.timer .restartBackend)
        = some s1 ∧
      s1.trace = demoCrashed.trace ++
        [Effect.spawn command args cwd env] ∧
      s1.spawns = demoCrashed.spawns + 1 ∧
      probesSent s1 = probesSent demoCrashed ∧
      s1.pendingProbes = demoCrashed.pendingProbes ∧
      s1.timers = demoCrashed.timers.erase .restartBackend ∧
      s1.timers.count .tryConnect =
        demoCrashed.timers.count .tryConnect ∧
      s1.mainWindow = demoCrashed.mainWindow :=
  ⟨by decide, restart_only_spawns demoHost _ (by decide)⟩

/-- C1 on the code. The handle with pid `p` is held, `before-quit` runs, and
tree-kill reports failure of the SIGTERM request: the callback reads
`pythonProcess.pid` after the handler has set `pythonProcess` to null, throws a
TypeError, and no SIGKILL request is made. -/
theorem no_escalation_after_failed_sigterm (h : Host) (s : State) (p : Nat)
    (hp : s.pythonProcess = some p) :
    ∃ s1, run h s [.beforeQuit, .killDone p true] = some s1 ∧
      s1.trace = s.trace ++ [Effect.kill p .SIGTERM true,
        Effect.uncaughtException
          (.typeError "Cannot read properties of null (reading pid)")] ∧
      s1.pythonProcess = none ∧ s1.isQuitting = true := by
  simp [run, step, onBeforeQuit, hp, onKillDone, settle, State.emit]

theorem no_escalation_after_failed_sigterm_witness :
    demoRunning.pythonProcess = some 100 ∧
    ∃ s1, run demoHost demoRunning [.beforeQuit, .killDone 100 true]
        = some s1 ∧
      s1.trace = demoRunning.trace ++ [Effect.kill 100 .SIGTERM true,
        Effect.uncaughtException
          (.typeError "Cannot read properties of null (reading pid)")] ∧
      s1.pythonProcess = none ∧ s1.isQuitting = true :=
  ⟨by decide, no_escalation_after_failed_sigterm demoHost _ 100 (by decide)⟩

/-- C10 on the code. A window `w` fails to load and is then closed; when the
500 ms load-failure timer fires its callback calls `mainWindow.loadURL` on
null and throws a TypeError.  The probe retry does not touch the window: with
the window gone it sends the next probe and throws nothing. -/
theorem reload_timer_throws_after_window_closed (h : Host) (s : State) (w : Nat)
    (hw : w ∈ s.windows) :
    (∃ s1, run h s [.didFailLoad w, .windowClosed w, .timer .reloadWindow] = some s1 ∧
      s1.trace = s.trace ++ [Effect.setTimeout .reloadWindow 500,
        Effect.uncaughtException
          (.typeError "Cannot read properties of null (reading loadURL)")]) ∧
    (∀ s2 : State, s2.mainWindow = none →
      (runTimer h s2 .tryConnect).trace = s2.trace ++ [Effect.httpGet FLASK_URL]) := by
  constructor
  · simp [run, step, hw, onDidFailLoad, onWindowClosed, runTimer, reloadWindow, settle,
      State.setTimeout, State.emit]
  · intro s2 _
    simp [runTimer, tryConnect, State.emit]

theorem reload_timer_throws_after_window_closed_witness :
    0 ∈ demoRunning.windows ∧
    ((∃ s1, run demoHost demoRunning
        [.didFailLoad 0, .windowClosed 0, .timer .reloadWindow] = some s1 ∧
      s1.trace = demoRunning.trace ++ [Effect.setTimeout .reloadWindow 500,
        Effect.uncaughtException
          (.typeError "Cannot read properties of null (reading loadURL)")]) ∧
    (∀ s2 : State, s2.mainWindow = none →
      (runTimer demoHost s2 .tryConnect).trace = s2.trace ++ [Effect.httpGet FLASK_URL])) :=
  ⟨by decide, reload_timer_throws_after_window_closed demoHost _ 0 (by decide)⟩

/-! ## The readiness probe -/

theorem run_append (h : Host) (s : State) (es1 es2 : List Event) :
    run h s (es1 ++ es2) = (run h s es1).bind fun s1 => run h s1 es2 := by
  induction es1 generalizing s with
  | nil => simp [run]
  | cons e es ih =>
    simp only [List.cons_append, run]
    cases step h s e with
    | none => simp
    | some s1 => simp [ih]

/-- One failed probe followed by its retry: a 500 ms timer, then the next request. -/
theorem probe_retry_round (h : Host) (t : State) (o : ProbeOutcome)
    (hp : t.pendingProbes = 1) (ht : TimerCallback.tryConnect ∉ t.timers)
    (ho : o ≠ .response 200) :
    run h t [.probe o, .timer .tryConnect] =
      some { t with trace := t.trace ++
        [Effect.setTimeout .tryConnect 500, Effect.httpGet FLASK_URL] } := by
  have herase : (t.timers ++ [TimerCallback.tryConnect]).erase .tryConnect = t.timers := by
    rw [List.erase_append_right _ ht]
    simp
  cases o with
  | error =>
    simp [run, step, hp, onProbeError, State.setTimeout, State.emit, runTimer, tryConnect,
      herase]
  | response c =>
    have hc : c ≠ 200 := fun e => ho (by rw [e])
    simp [run, step, hp, onProbeResponse, hc, State.setTimeout, State.emit, runTimer,
      tryConnect, herase]

theorem probe_run_aux (h : Host) (w : Nat) (pre : List ProbeOutcome)
    (hpre : ∀ o ∈ pre, o ≠ ProbeOutcome.response 200) (t : State)
    (hw : t.mainWindow = some w) (hp : t.pendingProbes = 1)
    (ht : TimerCallback.tryConnect ∉ t.timers) :
    run h t (pre.flatMap (fun o => [Event.probe o, Event.timer .tryConnect]) ++
        [.probe (.response 200)]) =
      some { t with
        pendingProbes := 0
        trace := t.trace ++
          (pre.flatMap fun _ => [Effect.setTimeout .tryConnect 500, Effect.httpGet FLASK_URL])
          ++ [Effect.loadURL w FLASK_URL] } := by
  induction pre generalizing t with
  | nil => simp [run, step, hp, hw, onProbeResponse, State.emit]
  | cons o pre ih =>
    have ho : o ≠ .response 200 := hpre o (by simp)
    have hrest : ∀ o2 ∈ pre, o2 ≠ ProbeOutcome.response 200 :=
      fun o2 h2 => hpre o2 (by simp [h2])
    have hround := probe_retry_round h t o hp ht ho
    simp only [List.flatMap_cons, List.append_assoc]
    rw [run_append, hround]
    simp only [Option.some_bind]
    rw [ih hrest { t with trace := t.trace ++
      [Effect.setTimeout .tryConnect 500, Effect.httpGet FLASK_URL] } hw hp ht]
    simp

/-- C5. With the window present and no other polling run under way, one call of
`checkServerAndLoad` whose probes meet the outcomes `pre` (errors or statuses
other than 200) and then a 200 sets exactly one 500 ms retry of `tryConnect`
per outcome of `pre`, calls `loadURL` exactly once, at the 200, and after it
has no request outstanding and no retry pending. -/
theorem probe_loads_once (h : Host) (s : State) (w : Nat) (pre : List ProbeOutcome)
    (hw : s.mainWindow = some w) (hp : s.pendingProbes = 0)
    (ht : TimerCallback.tryConnect ∉ s.timers)
    (hpre : ∀ o ∈ pre, o ≠ ProbeOutcome.response 200) :
    ∃ s1, run h (checkServerAndLoad s)
        (pre.flatMap (fun o => [Event.probe o, Event.timer .tryConnect]) ++
          [.probe (.response 200)]) = some s1 ∧
      s1.trace = s.trace ++ Effect.httpGet FLASK_URL ::
        (pre.flatMap fun _ => [Effect.setTimeout .tryConnect 500, Effect.httpGet FLASK_URL])
        ++ [Effect.loadURL w FLASK_URL] ∧
      (s1.trace.drop s.trace.length).count (Effect.loadURL w FLASK_URL) = 1 ∧
      probesSent s1 = probesSent s + pre.length + 1 ∧
      s1.pendingProbes = 0 ∧ TimerCallback.tryConnect ∉ s1.timers ∧
      (∀ o, step h s1 (.probe o) = none) ∧ step h s1 (.timer .tryConnect) = none := by
  have hrun := probe_run_aux h w pre hpre (checkServerAndLoad s)
    (by simp [checkServerAndLoad, tryConnect, State.emit, hw])
    (by simp [checkServerAndLoad, tryConnect, State.emit, hp])
    (by simpa [checkServerAndLoad, tryConnect, State.emit] using ht)
  have hcount : ∀ l : List ProbeOutcome,
      (l.flatMap fun _ => [Effect.setTimeout .tryConnect 500,
        Effect.httpGet FLASK_URL]).count (Effect.loadURL w FLASK_URL) = 0 := by
    intro l
    induction l with
    | nil => simp
    | cons a l ih => simp [List.flatMap_cons, List.count_cons, ih]
  have hsent : ∀ l : List ProbeOutcome,
      (l.flatMap fun _ => [Effect.setTimeout .tryConnect 500,
        Effect.httpGet FLASK_URL]).countP (fun e => match e with
          | .httpGet _ => true
          | _ => false) = l.length := by
    intro l
    induction l with
    | nil => simp
    | cons a l ih => simp [List.flatMap_cons, List.countP_cons, ih]
  refine ⟨_, hrun, ?_, ?_, ?_, ?_, ?_, ?_, ?_⟩
  · simp [checkServerAndLoad, tryConnect, State.emit]
  · simp [checkServerAndLoad, tryConnect, State.emit, List.count_cons, hcount]
  · simp only [probesSent]
    simp [checkServerAndLoad, tryConnect, State.emit, List.countP_cons, hsent]
    omega
  · simp
  · simpa [checkServerAndLoad, tryConnect, State.emit] using ht
  · intro o
    simp [step]
  · have ht2 : TimerCallback.tryConnect ∉ (checkServerAndLoad s).timers := by
      simpa [checkServerAndLoad, tryConnect, State.emit] using ht
    simp [step, ht2]

theorem probe_loads_once_witness :
    (createWindow State.init).mainWindow = some 0 ∧
    (createWindow State.init).pendingProbes = 0 ∧
    TimerCallback.tryConnect ∉ (createWindow State.init).timers ∧
    (∀ o ∈ [ProbeOutcome.error, ProbeOutcome.response 503], o ≠ ProbeOutcome.response 200) ∧
    ∃ s1, run demoHost (checkServerAndLoad (createWindow State.init))
        ([ProbeOutcome.error, ProbeOutcome.response 503].flatMap
          (fun o => [Event.probe o, Event.timer .tryConnect]) ++
          [.probe (.response 200)]) = some s1 ∧
      s1.trace = (createWindow State.init).trace ++ Effect.httpGet FLASK_URL ::
        ([ProbeOutcome.error, ProbeOutcome.response 503].flatMap
          fun _ => [Effect.setTimeout .tryConnect 500, Effect.httpGet FLASK_URL])
        ++ [Effect.loadURL 0 FLASK_URL] ∧
      (s1.trace.drop (createWindow State.init).trace.length).count
        (Effect.loadURL 0 FLASK_URL) = 1 ∧
      probesSent s1 = probesSent (createWindow State.init) +
        [ProbeOutcome.error, ProbeOutcome.response 503].length + 1 ∧
      s1.pendingProbes = 0 ∧ TimerCallback.tryConnect ∉ s1.timers ∧
      (∀ o, step demoHost s1 (.probe o) = none) ∧
      step demoHost s1 (.timer .tryConnect) = none :=
  ⟨by decide, by decide, by decide, by decide,
    probe_loads_once demoHost (createWindow State.init) 0 [.error, .response 503]
      (by decide) (by decide) (by decide) (by decide)⟩

/-! ## Supervision invariants -/

theorem startPythonBackend_live (h : Host) (s : State) :
    (startPythonBackend h s).live.length ≤ s.live.length + 1 := by
  simp only [startPythonBackend]
  cases h.spawnResult s.spawns <;> simp [State.emit]

theorem startPythonBackend_frame (h : Host) (s : State) :
    (startPythonBackend h s).timers = s.timers ∧
    (startPythonBackend h s).appReady = s.appReady ∧
    (startPythonBackend h s).isQuitting = s.isQuitting ∧
    (startPythonBackend h s).spawns = s.spawns + 1 := by
  simp only [startPythonBackend]
  cases h.spawnResult s.spawns <;> simp [State.emit]

theorem step_budget (h : Host) (s s1 : State) (e : Event) (hs : step h s e = some s1) :
    backendBudget s1 ≤ backendBudget s := by
  cases e with
  | ready =>
    by_cases hr : s.appReady = true
    · simp [step, hr] at hs
    · simp only [step, hr] at hs
      simp only [Bool.false_eq_true, if_false, Option.some.injEq] at hs
      subst hs
      have h1 := startPythonBackend_live h { s with appReady := true }
      obtain ⟨h2, h3, _, _⟩ := startPythonBackend_frame h { s with appReady := true }
      cases hd : isDev h <;>
        simp [backendBudget, onReady, createWindow, checkServerAndLoad, tryConnect,
          State.setTimeout, State.emit, restartTimers, hr, hd, h2, h3] <;>
        (simp at h1; omega)
  | close pid code =>
    by_cases hm : pid ∈ s.live
    · simp only [step, hm, if_true, Option.some.injEq] at hs
      subst hs
      have hlen : 0 < s.live.length := List.length_pos_of_mem hm
      cases hq : s.isQuitting with
      | false =>
        simp [backendBudget, onClose, State.setTimeout, State.emit, restartTimers, hq,
          List.length_erase_of_mem hm]
        omega
      | true =>
        simp [backendBudget, onClose, hq, restartTimers, List.length_erase_of_mem hm]
    · simp [step, hm] at hs
  | timer cb =>
    by_cases hm : cb ∈ s.timers
    · simp only [step, hm, if_true, Option.some.injEq] at hs
      subst hs
      cases cb with
      | restartBackend =>
        have h1 := startPythonBackend_live h { s with timers := s.timers.erase .restartBackend }
        obtain ⟨h2, h3, _, _⟩ :=
          startPythonBackend_frame h { s with timers := s.timers.erase .restartBackend }
        have hpos : 0 < s.timers.count .restartBackend := List.count_pos_iff.mpr hm
        simp only [backendBudget, runTimer, restartTimers, h2, h3, List.count_erase_self]
        simp only [] at h1 ⊢
        omega
      | tryConnect =>
        simp [backendBudget, runTimer, tryConnect, State.emit, restartTimers]
      | reloadWindow =>
        cases hw : s.mainWindow <;>
          simp [backendBudget, runTimer, reloadWindow, settle, State.emit, restartTimers, hw]
      | checkForUpdates =>
        simp [backendBudget, runTimer, State.emit, restartTimers]
    · simp [step, hm] at hs
  | beforeQuit =>
    simp only [step, Option.some.injEq] at hs
    subst hs
    cases hp : s.pythonProcess <;>
      simp [backendBudget, onBeforeQuit, State.emit, restartTimers, hp]
  | killDone pid err =>
    by_cases hm : pid ∈ s.killCallbacks
    · simp only [step, hm, if_true, Option.some.injEq] at hs
      subst hs
      cases err <;> cases hp : s.pythonProcess <;>
        simp [backendBudget, onKillDone, settle, State.emit, restartTimers, hp]
    · simp [step, hm] at hs
  | probe o =>
    by_cases hm : 0 < s.pendingProbes
    · cases o with
      | error =>
        simp only [step, hm, if_true, Option.some.injEq] at hs
        subst hs
        simp [backendBudget, onProbeError, State.setTimeout, State.emit, restartTimers]
      | response c =>
        simp only [step, hm, if_true, Option.some.injEq] at hs
        subst hs
        by_cases hc : c = 200 <;> cases hw : s.mainWindow <;>
          simp [backendBudget, onProbeResponse, State.setTimeout, State.emit, restartTimers,
            hc, hw]
    · simp [step, hm] at hs
  | windowClosed w =>
    by_cases hm : w ∈ s.windows
    · simp only [step, hm, if_true, Option.some.injEq] at hs
      subst hs
      simp [backendBudget, onWindowClosed, restartTimers]
    · simp [step, hm] at hs
  | didFailLoad w =>
    by_cases hm : w ∈ s.windows
    · simp only [step, hm, if_true, Option.some.injEq] at hs
      subst hs
      simp [backendBudget, onDidFailLoad, State.setTimeout, State.emit, restartTimers]
    · simp [step, hm] at hs
  | windowAllClosed =>
    by_cases hm : s.windows = []
    · simp only [step, hm, if_true, Option.some.injEq] at hs
      subst hs
      by_cases hpl : h.platform = "darwin" <;>
        simp [backendBudget, onWindowAllClosed, State.emit, restartTimers, hpl]
    · simp [step, hm] at hs
  | activate =>
    simp only [step, Option.some.injEq] at hs
    subst hs
    by_cases hl : s.windows.length = 0 <;>
      simp [backendBudget, onActivate, createWindow, State.emit, restartTimers, hl]
  | updateAvailable =>
    simp only [step, Option.some.injEq] at hs
    subst hs
    simp [backendBudget, showMessageBox, State.emit, restartTimers]
  | updateDownloaded =>
    simp only [step, Option.some.injEq] at hs
    subst hs
    simp [backendBudget, showMessageBox, State.emit, restartTimers]
  | dialogClosed d a =>
    by_cases hm : d ∈ s.dialogs
    · cases d with
      | updateAvailable =>
        simp only [step, hm, if_true, Option.some.injEq] at hs
        subst hs
        by_cases hr : h.messageBox (Dialog.buttons .updateAvailable) a = 0 <;>
          simp [backendBudget, onUpdateAvailableResult, State.emit, restartTimers, hr]
      | updateReady =>
        simp only [step, hm, if_true, Option.some.injEq] at hs
        subst hs
        simp [backendBudget, onUpdateDownloadedResult, State.emit, restartTimers]
    · simp [step, hm] at hs

theorem run_budget (h : Host) (es : List Event) (s s1 : State) (hr : run h s es = some s1) :
    backendBudget s1 ≤ backendBudget s := by
  induction es generalizing s with
  | nil =>
    simp only [run, Option.some.injEq] at hr
    rw [hr]
  | cons e es ih =>
    simp only [run] at hr
    cases hs : step h s e with
    | none => simp [hs] at hr
    | some s2 =>
      rw [hs] at hr
      exact le_trans (ih s2 hr) (step_budget h s s2 e hs)

/-- C4. From the start of the process, after any sequence of events the event
loop can deliver (the ready handler runs once, a child closes once, a timer
fires once after it was set), at most one spawned backend process has not
closed yet. -/
theorem single_backend (h : Host) (es : List Event) (s : State)
    (hr : run h State.init es = some s) : s.live.length ≤ 1 := by
  have hb := run_budget h es State.init s hr
  have h0 : backendBudget State.init = 1 := by decide
  unfold backendBudget at hb h0
  omega

theorem single_backend_witness :
    ∃ s, run demoHost State.init
        [.ready, .close 100 (some 1), .timer .restartBackend, .beforeQuit, .close 101 none]
      = some s ∧ s.live.length ≤ 1 := by
  cases hr : run demoHost State.init
      [.ready, .close 100 (some 1), .timer .restartBackend, .beforeQuit, .close 101 none] with
  | none => exact absurd hr (by decide)
  | some s => exact ⟨s, rfl, single_backend demoHost _ s hr⟩

/-- Once the ready handler has run and `isQuitting` is set, the flag is not
cleared by any event, no restart timer is added, and a further `spawn` call
uses up a restart timer that was pending. -/
theorem step_quitting (h : Host) (s s1 : State) (e : Event) (hs : step h s e = some s1)
    (hq : s.isQuitting = true) (hr : s.appReady = true) :
    s1.isQuitting = true ∧ s1.appReady = true ∧
      s1.spawns + restartTimers s1 ≤ s.spawns + restartTimers s ∧
      s.spawns ≤ s1.spawns := by
  cases e with
  | ready => simp [step, hr] at hs
  | close pid code =>
    by_cases hm : pid ∈ s.live
    · simp only [step, hm, if_true, Option.some.injEq] at hs
      subst hs
      simp [onClose, hq, hr, restartTimers]
    · simp [step, hm] at hs
  | timer cb =>
    by_cases hm : cb ∈ s.timers
    · simp only [step, hm, if_true, Option.some.injEq] at hs
      subst hs
      cases cb with
      | restartBackend =>
        obtain ⟨h2, h3, h4, h5⟩ :=
          startPythonBackend_frame h { s with timers := s.timers.erase .restartBackend }
        have hpos : 0 < s.timers.count .restartBackend := List.count_pos_iff.mpr hm
        simp only [runTimer, restartTimers, h2, h3, h4, h5, List.count_erase_self]
        simp only [] at hpos ⊢
        exact ⟨hq, hr, by omega, by omega⟩
      | tryConnect =>
        simp [runTimer, tryConnect, State.emit, restartTimers, hq, hr]
      | reloadWindow =>
        cases hw : s.mainWindow <;>
          simp [runTimer, reloadWindow, settle, State.emit, restartTimers, hw, hq, hr]
      | checkForUpdates =>
        simp [runTimer, State.emit, restartTimers, hq, hr]
    · simp [step, hm] at hs
  | beforeQuit =>
    simp only [step, Option.some.injEq] at hs
    subst hs
    cases hp : s.pythonProcess <;>
      simp [onBeforeQuit, State.emit, restartTimers, hp, hr]
  | killDone pid err =>
    by_cases hm : pid ∈ s.killCallbacks
    · simp only [step, hm, if_true, Option.some.injEq] at hs
      subst hs
      cases err <;> cases hp : s.pythonProcess <;>
        simp [onKillDone, settle, State.emit, restartTimers, hp, hq, hr]
    · simp [step, hm] at hs
  | probe o =>
    by_cases hm : 0 < s.pendingProbes
    · cases o with
      | error =>
        simp only [step, hm, if_true, Option.some.injEq] at hs
        subst hs
        simp [onProbeError, State.setTimeout, State.emit, restartTimers, hq, hr]
      | response c =>
        simp only [step, hm, if_true, Option.some.injEq] at hs
        subst hs
        by_cases hc : c = 200 <;> cases hw : s.mainWindow <;>
          simp [onProbeResponse, State.setTimeout, State.emit, restartTimers, hc, hw, hq, hr]
    · simp [step, hm] at hs
  | windowClosed w =>
    by_cases hm : w ∈ s.windows
    · simp only [step, hm, if_true, Option.some.injEq] at hs
      subst hs
      simp [onWindowClosed, restartTimers, hq, hr]
    · simp [step, hm] at hs
  | didFailLoad w =>
    by_cases hm : w ∈ s.windows
    · simp only [step, hm, if_true, Option.some.injEq] at hs
      subst hs
      simp [onDidFailLoad, State.setTimeout, State.emit, restartTimers, hq, hr]
    · simp [step, hm] at hs
  | windowAllClosed =>
    by_cases hm : s.windows = []
    · simp only [step, hm, if_true, Option.some.injEq] at hs
      subst hs
      by_cases hpl : h.platform = "darwin" <;>
        simp [onWindowAllClosed, State.emit, restartTimers, hpl, hq, hr]
    · simp [step, hm] at hs
  | activate =>
    simp only [step, Option.some.injEq] at hs
    subst hs
    by_cases hl : s.windows.length = 0 <;>
      simp [onActivate, createWindow, State.emit, restartTimers, hl, hq, hr]
  | updateAvailable =>
    simp only [step, Option.some.injEq] at hs
    subst hs
    simp [showMessageBox, State.emit, restartTimers, hq, hr]
  | updateDownloaded =>
    simp only [step, Option.some.injEq] at hs
    subst hs
    simp [showMessageBox, State.emit, restartTimers, hq, hr]
  | dialogClosed d a =>
    by_cases hm : d ∈ s.dialogs
    · cases d with
      | updateAvailable =>
        simp only [step, hm, if_true, Option.some.injEq] at hs
        subst hs
        by_cases hrs : h.messageBox (Dialog.buttons .updateAvailable) a = 0 <;>
          simp [onUpdateAvailableResult, State.emit, restartTimers, hrs, hq, hr]
      | updateReady =>
        simp only [step, hm, if_true, Option.some.injEq] at hs
        subst hs
        simp [onUpdateDownloadedResult, State.emit, restartTimers, hq, hr]
    · simp [step, hm] at hs

theorem run_quitting (h : Host) (es : List Event) (s s1 : State) (hrun : run h s es = some s1)
    (hq : s.isQuitting = true) (hr : s.appReady = true) :
    s1.isQuitting = true ∧ s1.appReady = true ∧
      s1.spawns + restartTimers s1 ≤ s.spawns + restartTimers s ∧
      s.spawns ≤ s1.spawns := by
  induction es generalizing s with
  | nil =>
    simp only [run, Option.some.injEq] at hrun
    subst hrun
    exact ⟨hq, hr, le_refl _, le_refl _⟩
  | cons e es ih =>
    simp only [run] at hrun
    cases hs : step h s e with
    | none => simp [hs] at hrun
    | some s2 =>
      rw [hs] at hrun
      obtain ⟨hq2, hr2, hle2, hm2⟩ := step_quitting h s s2 e hs hq hr
      obtain ⟨hq1, hr1, hle1, hm1⟩ := ih s2 hrun hq2 hr2
      exact ⟨hq1, hr1, le_trans hle1 hle2, le_trans hm2 hm1⟩

/-- C3 on the code. A child closes while `isQuitting` is false, so the close
listener sets the 2-second timer; `before-quit` then sets the flag and signals
the handle it holds; the timer fires afterwards and its callback, which does
not read `isQuitting`, calls `spawn` again.  The new child is alive and held
while `isQuitting` is true, and the only signal sent went to the old handle. -/
theorem restart_timer_spawns_after_quit (h : Host) (s : State) (pid : Nat)
    (code : Option Int) (hlive : pid ∈ s.live) (hq : s.isQuitting = false) :
    ∃ s0 s1 command args cwd env,
      run h s [.close pid code, .beforeQuit] = some s0 ∧
      s0.isQuitting = true ∧ s0.spawns = s.spawns ∧
      step h s0 (.timer .restartBackend) = some s1 ∧
      s1.isQuitting = true ∧ s1.spawns = s.spawns + 1 ∧
      s1.trace = s0.trace ++ [Effect.spawn command args cwd env] ∧
      s0.trace = s.trace ++ Effect.setTimeout .restartBackend 2000 ::
        (match s.pythonProcess with
          | some p => [Effect.kill p .SIGTERM true]
          | none => []) ∧
      (∀ p, h.spawnResult s.spawns = .child p →
        s1.pythonProcess = some p ∧ p ∈ s1.live) := by
  have hrun : run h s [.close pid code, .beforeQuit] =
      some (onBeforeQuit (onClose { s with live := s.live.erase pid } code)) := by
    simp [run, step, hlive]
  have hmem : TimerCallback.restartBackend ∈
      (onBeforeQuit (onClose { s with live := s.live.erase pid } code)).timers := by
    cases hp : s.pythonProcess <;>
      simp [onBeforeQuit, onClose, hq, hp, State.setTimeout, State.emit]
  have hstep : step h (onBeforeQuit (onClose { s with live := s.live.erase pid } code))
      (.timer .restartBackend) = some (startPythonBackend h
        { onBeforeQuit (onClose { s with live := s.live.erase pid } code) with
          timers := (onBeforeQuit (onClose { s with live := s.live.erase pid }
            code)).timers.erase .restartBackend }) := by
    simp only [step, hmem, if_true]
    rfl
  refine ⟨_, _, _, _, _, _, hrun, ?_, ?_, hstep, ?_, ?_, startPythonBackend_trace h _, ?_, ?_⟩
  · cases hp : s.pythonProcess <;> simp [onBeforeQuit, onClose, hq, hp, State.setTimeout,
      State.emit]
  · cases hp : s.pythonProcess <;> simp [onBeforeQuit, onClose, hq, hp, State.setTimeout,
      State.emit]
  · rw [(startPythonBackend_frame h _).2.2.1]
    cases hp : s.pythonProcess <;> simp [onBeforeQuit, onClose, hq, hp, State.setTimeout,
      State.emit]
  · rw [(startPythonBackend_frame h _).2.2.2]
    cases hp : s.pythonProcess <;> simp [onBeforeQuit, onClose, hq, hp, State.setTimeout,
      State.emit]
  · cases hp : s.pythonProcess <;> simp [onBeforeQuit, onClose, hq, hp, State.setTimeout,
      State.emit]
  · intro p hsp
    have hsp0 : (onBeforeQuit (onClose { s with live := s.live.erase pid } code)).spawns
        = s.spawns := by
      cases hp : s.pythonProcess <;> simp [onBeforeQuit, onClose, hq, hp, State.setTimeout,
        State.emit]
    simp only [startPythonBackend, hsp0, hsp]
    simp

theorem restart_timer_spawns_after_quit_witness :
    100 ∈ demoRunning.live ∧ demoRunning.isQuitting = false ∧
    ∃ s0 s1 command args cwd env,
      run demoHost demoRunning [.close 100 (some 1), .beforeQuit] = some s0 ∧
      s0.isQuitting = true ∧ s0.spawns = demoRunning.spawns ∧
      step demoHost s0 (.timer .restartBackend) = some s1 ∧
      s1.isQuitting = true ∧ s1.spawns = demoRunning.spawns + 1 ∧
      s1.trace = s0.trace ++ [Effect.spawn command args cwd env] ∧
      s0.trace = demoRunning.trace ++ Effect.setTimeout .restartBackend 2000 ::
        (match demoRunning.pythonProcess with
          | some p => [Effect.kill p .SIGTERM true]
          | none => []) ∧
      (∀ p, demoHost.spawnResult demoRunning.spawns = .child p →
        s1.pythonProcess = some p ∧ p ∈ s1.live) :=
  ⟨by decide, by decide,
    restart_timer_spawns_after_quit demoHost demoRunning 100 (some 1) (by decide) (by decide)⟩

end MeaDocs
